import Mathlib

/-!
# Verification of the Before/After Pro compositing core

Shallow embedding of the canvas-based image-processing, GIF-export,
capture and exporter logic of the `vajradog/beforeafter` repository
(`src/utils/imageProcessing.ts`, `src/utils/exporters.ts`, the camera
utility module and the GIF exporter module), together with theorems
checking the natural-language specification against it.

Numeric conventions: JavaScript numbers are embedded as `ℚ` (all the
arithmetic the claims touch is exact at these magnitudes), `Math.round x`
as `⌊x + 1/2⌋` (its behaviour on the non-negative values that occur
here), and `Math.floor` as `Int.floor`.
-/

namespace BeforeAfter

/-- `Math.round` on non-negative values: round half up. -/
def jsRound (q : ℚ) : ℤ := ⌊q + 1/2⌋

/-! ## GIF exporter: frame sequence (`createSliderGif`, frame list)

Source: the GIF exporter module concatenated into
`src/utils/imageProcessing.ts` — `const slideCount = 14;` and the four
`frames.push` blocks. -/

/-- One entry of the `frames` array: `{ pct, delay }` with
`pct : 0 = full after, 1 = full before` and `delay` in milliseconds. -/
structure GifFrame where
  pct : ℚ
  delay : ℕ
deriving DecidableEq, Repr

/-- The ease-in-out quadratic from the source:
`t < 0.5 ? 2 * t * t : 1 - Math.pow(-2 * t + 2, 2) / 2`. -/
def easeInOutQuad (t : ℚ) : ℚ :=
  if t < 1/2 then 2 * t * t else 1 - (-2 * t + 2) ^ 2 / 2

/-- `const slideCount = 14`. -/
def slideCount : ℕ := 14

/-- The frame sequence built by `createSliderGif`:
hold on BEFORE (`pct = 1`, 1000 ms); `for (i = 1; i < slideCount; i++)`
eased frames toward AFTER at 80 ms; hold on AFTER (`pct = 0`, 1000 ms);
the same loop easing back to BEFORE. -/
def gifFrames : List GifFrame :=
  [⟨1, 1000⟩]
    ++ ((List.range' 1 (slideCount - 1)).map fun i =>
        ⟨1 - easeInOutQuad ((i : ℚ) / slideCount), 80⟩)
    ++ [⟨0, 1000⟩]
    ++ ((List.range' 1 (slideCount - 1)).map fun i =>
        ⟨easeInOutQuad ((i : ℚ) / slideCount), 80⟩)

/-! ## GIF exporter: working resolution and palette sampling

Source: `createSliderGif` — `const maxW = 480; const srcW = ...;
const scale = Math.min(1, maxW / srcW); const w = Math.round(srcW * scale);
const h = Math.round(srcH * scale);` and the sub-sampling loops feeding
`quantize(combined.subarray(0, ci), 256)`. -/

/-- `Math.min(1, maxW / srcW)` with `maxW = 480`. -/
def gifScale (srcW : ℕ) : ℚ := min 1 (480 / (srcW : ℚ))

/-- Working `(w, h)` of the GIF canvas for source bitmaps of the given
dimensions (`srcW`/`srcH` are the per-axis maxima of the two inputs). -/
def gifWorkingSize (bw bh aw ah : ℕ) : ℤ × ℤ :=
  let srcW := max bw aw
  let srcH := max bh ah
  let scale := gifScale srcW
  (jsRound ((srcW : ℚ) * scale), jsRound ((srcH : ℚ) * scale))

/-- An RGB pixel (the alpha channel of the sample buffer is forced to
255 by the source). -/
structure RGB where
  r : ℕ
  g : ℕ
  b : ℕ
deriving DecidableEq, Repr

/-- An RGBA sample as written into the `combined` buffer. -/
structure RGBA where
  r : ℕ
  g : ℕ
  b : ℕ
  a : ℕ
deriving DecidableEq, Repr

/-- The sampling loop
`for (let i = 0; i < totalPixels * 4; i += step * 4)` with `step = 4`
reads bytes `i`, `i+1`, `i+2` (pixel number `i / 4 = 0, 4, 8, ...`) and
writes alpha 255, iterating `⌈totalPixels / 4⌉` times. -/
def sampleEvery4 (px : ℕ → RGB) (totalPixels : ℕ) : List RGBA :=
  (List.range ((totalPixels + 3) / 4)).map fun k =>
    ⟨(px (4 * k)).r, (px (4 * k)).g, (px (4 * k)).b, 255⟩

/-- Modelled from the spec: `quantize` of the external `gifenc`
dependency (not part of this repository) — "derive one shared palette of
at most 256 colors" from the sample buffer. Modelled as the distinct
sample colors truncated to the color budget. -/
def quantize (samples : List RGBA) (maxColors : ℕ) : List RGBA :=
  samples.dedup.take maxColors

/-- The concatenated sample buffer passed to `quantize`: before-samples
followed by after-samples. -/
def gifCombinedSamples (beforePx afterPx : ℕ → RGB) (totalPixels : ℕ) :
    List RGBA :=
  sampleEvery4 beforePx totalPixels ++ sampleEvery4 afterPx totalPixels

/-- `const palette = quantize(combined.subarray(0, ci), 256)`. -/
def gifPalette (beforePx afterPx : ℕ → RGB) (totalPixels : ℕ) : List RGBA :=
  quantize (gifCombinedSamples beforePx afterPx totalPixels) 256

/-! ## GIF exporter: per-frame encoding (`gif.writeFrame` loop)

Source: `createSliderGif` — the `for (let f = 0; f < frames.length; f++)`
loop: render the frame, `applyPalette`, and
`if (f === 0) opts.palette = palette; gif.writeFrame(index, w, h, opts)`. -/

/-- Squared distance between two RGBA samples, used to pick the nearest
palette entry. -/
def rgbaDistSq (c d : RGBA) : ℤ :=
  ((c.r : ℤ) - d.r) ^ 2 + ((c.g : ℤ) - d.g) ^ 2
    + ((c.b : ℤ) - d.b) ^ 2 + ((c.a : ℤ) - d.a) ^ 2

/-- Modelled from the spec: `applyPalette` of the external `gifenc`
dependency — "map every pixel to its nearest palette entry". Returns the
index of the first entry minimizing the squared distance. -/
def nearestPaletteIndex (palette : List RGBA) (c : RGBA) : ℕ :=
  (palette.enum.foldl
    (fun best cur =>
      if rgbaDistSq cur.2 c < rgbaDistSq (palette.getD best ⟨0,0,0,0⟩) c
        then cur.1 else best)
    0)

/-- Modelled from the spec: `applyPalette(rgba, palette)` maps every
pixel of the frame to a palette index. -/
def applyPalette (pixels : List RGBA) (palette : List RGBA) : List ℕ :=
  pixels.map (nearestPaletteIndex palette)

/-- One frame as handed to `gif.writeFrame(index, w, h, opts)`:
the palette-mapped pixel indices, dimensions, delay, and the optional
palette table (`opts.palette`, set only when `f === 0`). -/
structure WrittenFrame where
  index : List ℕ
  width : ℕ
  height : ℕ
  delay : ℕ
  paletteCarried : Option (List RGBA)
deriving DecidableEq, Repr

/-- The encoder loop of `createSliderGif`: for each frame (in sequence
order) render it, map it through the shared palette, and write it; only
the frame at position `f = 0` carries the palette table. `renderPx pct`
stands for the pixel readback of the canvas after
`renderSliderFrame(ctx, ..., pct)`. -/
def sliderGifWrites (renderPx : ℚ → List RGBA) (palette : List RGBA)
    (frames : List GifFrame) (w h : ℕ) : List WrittenFrame :=
  frames.enum.map fun fc =>
    ⟨applyPalette (renderPx fc.2.pct) palette, w, h, fc.2.delay,
      if fc.1 = 0 then some palette else none⟩

/-- The whole `createSliderGif` pipeline after image decode, at the level
of detail the claims need: the palette is computed once, up front, from
the two source bitmaps, and then every frame of `gifFrames` is encoded
against it. -/
def createSliderGifModel (beforePx afterPx : ℕ → RGB) (totalPixels : ℕ)
    (renderPx : ℚ → List RGBA) (w h : ℕ) : List WrittenFrame :=
  let palette := gifPalette beforePx afterPx totalPixels
  sliderGifWrites renderPx palette gifFrames w h

/-! ## `renderSliderFrame`

Source: the GIF exporter module — `const splitX = Math.round(w * pct);`,
the `if (splitX > 0)` clipped draw of the before image, and the
`if (splitX > 2 && splitX < w - 2)` divider/handle block with
`ctx.arc(splitX, cy, r, ...)` at `cy = h / 2`. -/

/-- The geometry `renderSliderFrame` produces for one frame: the clip
boundary, whether the clipped before-image draw happens, whether the
divider line and grab handle are drawn, and the handle's center when it
is. -/
structure SliderFrameGeometry where
  splitX : ℤ
  beforeDrawn : Bool
  dividerDrawn : Bool
  handleDrawn : Bool
  handleCenter : Option (ℤ × ℚ)
  handleRadius : ℤ
deriving DecidableEq, Repr

/-- Geometry of `renderSliderFrame(ctx, beforeImg, afterImg, w, h, pct)`. -/
def renderSliderFrame (w h : ℕ) (pct : ℚ) : SliderFrameGeometry :=
  let splitX := jsRound ((w : ℚ) * pct)
  let edge : Bool := decide (2 < splitX ∧ splitX < (w : ℤ) - 2)
  { splitX := splitX
    beforeDrawn := decide (0 < splitX)
    dividerDrawn := edge
    handleDrawn := edge
    handleCenter := if 2 < splitX ∧ splitX < (w : ℤ) - 2
      then some (splitX, (h : ℚ) / 2) else none
    handleRadius := max 12 (jsRound ((w : ℚ) * (4/100))) }

/-! ## Frame capture (`captureFrame`, camera utility module)

Source: the camera utility module — `captureFrame(videoEl, quality)` sets
`canvas.width = videoEl.videoWidth; canvas.height = videoEl.videoHeight`,
draws the current frame, and returns
`canvas.toDataURL('image/jpeg', quality)`. It performs no dimension
validation and has no throw path; per the HTML canvas specification,
`toDataURL` on a canvas with zero area returns the degenerate string
`"data:,"`. -/

/-- A live video frame source: its current native pixel dimensions. -/
structure LiveFrameSource where
  videoWidth : ℕ
  videoHeight : ℕ
deriving DecidableEq, Repr

/-- Result of `canvas.toDataURL`: either the degenerate `"data:,"` of a
zero-area canvas, or an encoded image of the canvas dimensions. -/
inductive DataURL where
  | empty
  | image (mime : String) (width height : ℕ) (quality : ℚ)
deriving DecidableEq, Repr

/-- `canvas.toDataURL(mime, quality)` for a `w × h` canvas. -/
def canvasToDataURL (w h : ℕ) (mime : String) (q : ℚ) : DataURL :=
  if w = 0 ∨ h = 0 then .empty else .image mime w h q

/-- The error class the specification names for capture failures (the
source code defines no such class). -/
inductive CaptureError where
  | zeroDimensions
deriving DecidableEq, Repr

/-- `captureFrame`: rasterize one frame at the source's current native
dimensions and re-encode as JPEG. The `Except` wrapper records the
fallible signature the specification describes; the source body has no
failure path, so the result is always `.ok`. -/
def captureFrame (src : LiveFrameSource) (quality : ℚ) :
    Except CaptureError DataURL :=
  .ok (canvasToDataURL src.videoWidth src.videoHeight "image/jpeg" quality)

/-! ## `createSideBySide` layout

Source: `src/utils/imageProcessing.ts` — canvas sizing
(`const divider = 4; const watermarkH = watermark.trim() ?
Math.max(36, Math.floor(h * 0.04)) : 0; canvas.width = w * 2 + divider;
canvas.height = h + watermarkH;`) and the centered draw positions
(`bx = (w - beforeImg.width) / 2`, `ax = w + divider +
(w - afterImg.width) / 2`, and the corresponding `y` offsets). -/

/-- JS `String.prototype.trim`: strip whitespace from both ends. -/
def jsTrim (s : String) : String :=
  ⟨((s.data.dropWhile Char.isWhitespace).reverse.dropWhile
      Char.isWhitespace).reverse⟩

/-- `const divider = 4`. -/
def sideDivider : ℕ := 4

/-- `Math.max(36, Math.floor(h * 0.04))`. -/
def wmStripHeight (h : ℕ) : ℕ := max 36 (Int.toNat ⌊(h : ℚ) * (4/100)⌋)

/-- The layout `createSideBySide` computes: output canvas dimensions and
the top-left draw positions of the two images. -/
structure SideBySideLayout where
  canvasWidth : ℕ
  canvasHeight : ℕ
  beforeX : ℚ
  beforeY : ℚ
  afterX : ℚ
  afterY : ℚ
deriving DecidableEq, Repr

/-- Layout of `createSideBySide(beforeDataUrl, afterDataUrl, options)`
for decoded bitmaps of `bw × bh` and `aw × ah` pixels. -/
def createSideBySide (bw bh aw ah : ℕ) (watermark : String) :
    SideBySideLayout :=
  let w := max bw aw
  let h := max bh ah
  let watermarkH := if jsTrim watermark ≠ "" then wmStripHeight h else 0
  { canvasWidth := w * 2 + sideDivider
    canvasHeight := h + watermarkH
    beforeX := ((w : ℚ) - bw) / 2
    beforeY := ((h : ℚ) - bh) / 2
    afterX := (w : ℚ) + sideDivider + ((w : ℚ) - aw) / 2
    afterY := ((h : ℚ) - ah) / 2 }

/-! ## `resizeImage`

Source: `src/utils/imageProcessing.ts` — the early return when both
dimensions are within `maxDimension`, else
`ratio = Math.min(maxDimension / width, maxDimension / height)` and
`newW = Math.round(width * ratio)`, `newH = Math.round(height * ratio)`. -/

/-- A decoded input image together with the data URL it was decoded
from. -/
structure LoadedImage where
  dataUrl : String
  width : ℕ
  height : ℕ
deriving DecidableEq, Repr

/-- Result of `resizeImage`: either the input data URL returned as-is,
or a re-encoded image of the given dimensions and quality. -/
inductive ResizeOutcome where
  | original (dataUrl : String)
  | reencoded (newW newH : ℤ) (quality : ℚ)
deriving DecidableEq, Repr

/-- `resizeImage(dataUrl, maxDimension, quality)`. -/
def resizeImage (img : LoadedImage) (maxDimension : ℕ) (quality : ℚ) :
    ResizeOutcome :=
  if img.width ≤ maxDimension ∧ img.height ≤ maxDimension then
    .original img.dataUrl
  else
    let ratio := min ((maxDimension : ℚ) / img.width)
      ((maxDimension : ℚ) / img.height)
    .reencoded (jsRound ((img.width : ℚ) * ratio))
      (jsRound ((img.height : ℚ) * ratio)) quality

/-! ## Standalone HTML slider export (`exportHtmlSlider`, `escapeHtml`)

Source: `src/utils/exporters.ts` — `escapeHtml` applies five global
replaces in the order `&`, `<`, `>`, `"`, `'`; since `&` is replaced
first and every replacement string introduces only characters (`&`,
letters, digits, `#`, `;`) untouched by the later replaces, the
sequential replaces equal a single character-wise map, embedded as such
here. `exportHtmlSlider` validates
`beforeDataUrl.startsWith('data:image/')` (likewise for the after input)
before building any output, then interpolates the escaped data URLs into
the `src` attributes of the two `img` tags of a fixed template. -/

/-- JS `String.prototype.startsWith`, as a character-list prefix test. -/
def startsWithDataImage (s : String) : Bool :=
  "data:image/".data.isPrefixOf s.data

/-- The character-wise expansion of `escapeHtml`'s five replaces. -/
def escapeHtmlChar (c : Char) : List Char :=
  if c = '&' then "&amp;".data
  else if c = '<' then "&lt;".data
  else if c = '>' then "&gt;".data
  else if c = Char.ofNat 34 then "&quot;".data
  else if c = Char.ofNat 39 then "&#039;".data
  else [c]

/-- `escapeHtml(str)`. -/
def escapeHtml (s : String) : String := ⟨(s.data.map escapeHtmlChar).flatten⟩

/-- The error the specification names `EncodingRejected`; the source
throws `Error('Invalid image data')`. -/
inductive ExportHtmlError where
  | encodingRejected
deriving DecidableEq, Repr

/-- The emitted standalone document, split at its two interpolation
points. The static template text (doctype, styles, markup, script)
contains no interpolation, so only the fragments adjacent to the
embedded image data are spelled out. -/
structure HtmlSliderDoc where
  headPart : String
  afterSrc : String
  midPart : String
  beforeSrc : String
  tailPart : String
deriving DecidableEq, Repr

/-- Static template text ending in `src="` of the after `img` tag
(abbreviated to the adjacent fragment). -/
def htmlTplHead : String := "<img class=\"slider-img\" id=\"afterImg\" src=\""

/-- Static template text between the two interpolated `src` values. -/
def htmlTplMid : String :=
  "\" alt=\"After\" draggable=\"false\"> ... id=\"beforeImg\" src=\""

/-- Static template text after the second interpolated `src` value
(abbreviated). -/
def htmlTplTail : String := "\" alt=\"Before\" draggable=\"false\">"

/-- The full emitted document text. -/
def htmlDocString (d : HtmlSliderDoc) : String :=
  d.headPart ++ d.afterSrc ++ d.midPart ++ d.beforeSrc ++ d.tailPart

/-- `exportHtmlSlider(beforeDataUrl, afterDataUrl)`:
`if (!beforeDataUrl.startsWith('data:image/') ||
!afterDataUrl.startsWith('data:image/')) throw ...`, then the template
with `escapeHtml(afterDataUrl)` and `escapeHtml(beforeDataUrl)`
interpolated. -/
def exportHtmlSlider (beforeDataUrl afterDataUrl : String) :
    Except ExportHtmlError HtmlSliderDoc :=
  if startsWithDataImage beforeDataUrl = false
      ∨ startsWithDataImage afterDataUrl = false then
    .error .encodingRejected
  else
    .ok ⟨htmlTplHead, escapeHtml afterDataUrl, htmlTplMid,
      escapeHtml beforeDataUrl, htmlTplTail⟩

/-- A string free of the characters that could break out of an HTML
attribute or element context: `<`, `>`, `"` (U+0022), `'` (U+0027). -/
def noMarkupBreakers (s : String) : Prop :=
  ∀ c ∈ s.data, c ≠ '<' ∧ c ≠ '>' ∧ c ≠ Char.ofNat 34 ∧ c ≠ Char.ofNat 39

/-! ## Interactive slider initialization (`initInlineSlider`,
`initFullscreenSlider`)

Source: `src/utils/exporters.ts` — module-level
`inlineSliderCleanup` / `fullscreenSliderCleanup` slots; each init first
runs the stored cleanup (which calls `removeEventListener` for every
handler the previous init registered), then attaches its own named
handlers and stores a new cleanup. The embedding tracks the resulting
registry of attached document/window/element listeners; a handler
closure is identified by the init session that created it. -/

/-- Which kind of interactive preview registered a listener. -/
inductive SliderKind where
  | inlineKind
  | fullscreenKind
deriving DecidableEq, Repr

/-- One attached event listener: target, event name, and the identity of
the handler closure (the preview kind and init session that created
it). -/
structure DomListener where
  target : String
  event : String
  kind : SliderKind
  session : ℕ
deriving DecidableEq, Repr

/-- The (target, event) pairs `initInlineSlider` attaches, in source
order. -/
def inlineListenerSpecs : List (String × String) :=
  [("afterImg", "load"), ("window", "resize"),
   ("window", "orientationchange"), ("handle", "mousedown"),
   ("handle", "touchstart"), ("document", "mousemove"),
   ("document", "touchmove"), ("document", "mouseup"),
   ("document", "touchend"), ("container", "click")]

/-- The (target, event) pairs `initFullscreenSlider` attaches, in source
order (the close-button listener is attached only when the button
exists; it is included here, which does not affect the claim). -/
def fullscreenListenerSpecs : List (String × String) :=
  [("afterImg", "load"), ("window", "resize"),
   ("window", "orientationchange"), ("handle", "mousedown"),
   ("handle", "touchstart"), ("document", "mousemove"),
   ("document", "touchmove"), ("document", "mouseup"),
   ("document", "touchend"), ("closeBtn", "click"),
   ("container", "click"), ("wrapper", "click")]

/-- The listeners one init of kind `k` and session `n` attaches. -/
def mkListeners (k : SliderKind) (specs : List (String × String))
    (n : ℕ) : List DomListener :=
  specs.map fun p => ⟨p.1, p.2, k, n⟩

/-- Whether a registered listener is one the stored cleanup of kind `k`,
session `n` removes (`removeEventListener` matches target, event and the
handler closure). -/
def cleanupRemoves (k : SliderKind) (specs : List (String × String))
    (n : ℕ) (l : DomListener) : Bool :=
  l.kind == k && l.session == n && specs.contains (l.target, l.event)

/-- Running a stored cleanup: remove every listener it registered. -/
def detachSession (k : SliderKind) (specs : List (String × String))
    (n : ℕ) (reg : List DomListener) : List DomListener :=
  reg.filter fun l => !(cleanupRemoves k specs n l)

/-- The listeners of kind `k` currently attached. -/
def activeOf (k : SliderKind) (reg : List DomListener) : List DomListener :=
  reg.filter fun l => l.kind == k

/-- The mutable module state of `exporters.ts` that the claims concern:
the attached listeners plus the two cleanup slots (identified by the
session whose cleanup they hold). -/
structure SliderListenerState where
  reg : List DomListener
  inlineSession : Option ℕ
  fsSession : Option ℕ
deriving DecidableEq, Repr

/-- `initInlineSlider`: `if (inlineSliderCleanup) inlineSliderCleanup();`
then attach this session's listeners and store its cleanup. -/
def initInlineSlider (n : ℕ) (st : SliderListenerState) :
    SliderListenerState :=
  let cleaned := match st.inlineSession with
    | some m => detachSession .inlineKind inlineListenerSpecs m st.reg
    | none => st.reg
  ⟨cleaned ++ mkListeners .inlineKind inlineListenerSpecs n, some n,
    st.fsSession⟩

/-- `initFullscreenSlider`:
`if (fullscreenSliderCleanup) fullscreenSliderCleanup();` then attach
this session's listeners and store its cleanup. -/
def initFullscreenSlider (n : ℕ) (st : SliderListenerState) :
    SliderListenerState :=
  let cleaned := match st.fsSession with
    | some m => detachSession .fullscreenKind fullscreenListenerSpecs m st.reg
    | none => st.reg
  ⟨cleaned ++ mkListeners .fullscreenKind fullscreenListenerSpecs n,
    st.inlineSession, some n⟩

/-- One initialization call of either kind. -/
inductive SliderInit where
  | inlineInit (n : ℕ)
  | fullscreenInit (n : ℕ)
deriving DecidableEq, Repr

/-- Apply one initialization to the module state. -/
def applyInit : SliderInit → SliderListenerState → SliderListenerState
  | .inlineInit n, st => initInlineSlider n st
  | .fullscreenInit n, st => initFullscreenSlider n st

/-- Run a sequence of initializations. -/
def runInits (ops : List SliderInit) (st : SliderListenerState) :
    SliderListenerState :=
  ops.foldl (fun s op => applyInit op s) st

/-- Fresh module state: no listeners, empty cleanup slots. -/
def initialListenerState : SliderListenerState := ⟨[], none, none⟩

/-- The active listeners of a kind a cleanup slot accounts for. -/
def expectedActive (k : SliderKind) (specs : List (String × String)) :
    Option ℕ → List DomListener
  | none => []
  | some m => mkListeners k specs m

/-- The registry invariant: the active listeners of each kind are
exactly the ones registered by the session stored in that kind's cleanup
slot. -/
def GoodState (st : SliderListenerState) : Prop :=
  activeOf .inlineKind st.reg
      = expectedActive .inlineKind inlineListenerSpecs st.inlineSession ∧
    activeOf .fullscreenKind st.reg
      = expectedActive .fullscreenKind fullscreenListenerSpecs st.fsSession

/-! ## Theorems -/

/-- `⌊q + 1/2⌋ ≤ n` whenever `q ≤ n`. -/
theorem jsRound_le_of_le {q : ℚ} {n : ℕ} (h : q ≤ n) : jsRound q ≤ n := by
  have h2 : q + 1/2 ≤ (n : ℚ) + 1/2 := by linarith
  calc jsRound q ≤ ⌊(n : ℚ) + 1/2⌋ := Int.floor_le_floor h2
    _ = n := by
        rw [show ((n : ℚ)) = ((n : ℤ) : ℚ) by push_cast; ring, add_comm,
          Int.floor_add_int]
        norm_num

/-- C1 (counterexample): the frame sequence built by `createSliderGif`
has 28 frames (1 hold + 13 eased + 1 hold + 13 eased), not 30, and its
last delay is 80 ms, not 1000 ms. -/
theorem gifFrames_count_counterexample :
    gifFrames.length = 28 ∧ gifFrames.length ≠ 30 ∧
      (gifFrames.map GifFrame.delay).getLast? = some 80 := by
  refine ⟨by decide, by decide, by decide⟩

/-- C1 (amended): the frame sequence consists of exactly 28 frames: one
hold frame at `pct = 1` with delay 1000 ms, 13 eased frames at 80 ms each
with eased value `easeInOutQuad (i/14)` (which is `2t²` for `t < 1/2` and
`1 - (-2t+2)²/2` otherwise), one hold frame at `pct = 0` with delay
1000 ms, and 13 eased frames back at 80 ms each; the delays at positions
0 and 14 are 1000 ms, all 26 others are 80 ms. -/
theorem gifFrames_structure :
    gifFrames.length = 28 ∧
    gifFrames.map GifFrame.delay
      = [1000] ++ List.replicate 13 80 ++ [1000] ++ List.replicate 13 80 ∧
    gifFrames.head? = some ⟨1, 1000⟩ ∧
    gifFrames[14]? = some ⟨0, 1000⟩ ∧
    ∀ i : ℕ, i ∈ Finset.Icc 1 13 →
      gifFrames[i]? = some ⟨1 - easeInOutQuad ((i : ℚ) / 14), 80⟩ ∧
      gifFrames[14 + i]? = some ⟨easeInOutQuad ((i : ℚ) / 14), 80⟩ ∧
      ((i : ℚ) / 14 < 1/2 →
        easeInOutQuad ((i : ℚ) / 14) = 2 * ((i : ℚ) / 14) * ((i : ℚ) / 14)) ∧
      (¬ ((i : ℚ) / 14 < 1/2) →
        easeInOutQuad ((i : ℚ) / 14) = 1 - (-2 * ((i : ℚ) / 14) + 2) ^ 2 / 2) := by
  refine ⟨rfl, rfl, rfl, rfl, ?_⟩
  intro i hi
  fin_cases hi <;>
    exact ⟨rfl, rfl, fun ht => by rw [easeInOutQuad, if_pos ht],
      fun ht => by rw [easeInOutQuad, if_neg ht]⟩

/-- C1 (witness for `gifFrames_structure`): the 7th frame is the eased
frame at `t = 7/14`. -/
theorem gifFrames_structure_witness :
    (7 : ℕ) ∈ Finset.Icc 1 13 ∧
      gifFrames[(7 : ℕ)]? = some ⟨1 - easeInOutQuad (((7 : ℕ) : ℚ) / 14), 80⟩ :=
  ⟨by decide, (gifFrames_structure.2.2.2.2 7 (by decide)).1⟩

/-- C2 (counterexample): for source bitmaps of 300×1000 (a source
dimension exceeds 480), the working resolution is 300×1000, whose maximum
exceeds 480: the scale factor only caps the working width. -/
theorem gifWorkingSize_counterexample :
    (1000 : ℕ) > 480 ∧
      gifWorkingSize 300 1000 300 1000 = (300, 1000) ∧
      ¬ (max (gifWorkingSize 300 1000 300 1000).1
            (gifWorkingSize 300 1000 300 1000).2 ≤ 480) := by
  have h : gifWorkingSize 300 1000 300 1000 = (300, 1000) := by
    rw [gifWorkingSize]
    norm_num [gifScale, jsRound, min_def]
  refine ⟨by norm_num, h, ?_⟩
  rw [h]
  norm_num

/-- C2 (amended): the working resolution is obtained by the single
uniform scale factor `min(1, 480/srcW)` applied to both axes, so the
working *width* never exceeds 480 (the height may, for tall sources);
the palette samples are every 4th pixel by linear buffer offset from
both the before and the after bitmap at that working resolution, and the
shared palette has at most 256 colors. -/
theorem gifPalette_spec (beforePx afterPx : ℕ → RGB) (total : ℕ)
    (bw bh aw ah : ℕ) :
    (gifWorkingSize bw bh aw ah).1 ≤ 480 ∧
    gifWorkingSize bw bh aw ah
      = (jsRound (((max bw aw : ℕ) : ℚ) * gifScale (max bw aw)),
         jsRound (((max bh ah : ℕ) : ℚ) * gifScale (max bw aw))) ∧
    gifCombinedSamples beforePx afterPx total
      = sampleEvery4 beforePx total ++ sampleEvery4 afterPx total ∧
    (∀ k, k < (total + 3) / 4 →
      (sampleEvery4 beforePx total)[k]?
        = some ⟨(beforePx (4 * k)).r, (beforePx (4 * k)).g,
                (beforePx (4 * k)).b, 255⟩) ∧
    (gifPalette beforePx afterPx total).length ≤ 256 := by
  refine ⟨?_, rfl, rfl, ?_, ?_⟩
  · set srcW := max bw aw with hsrc
    have hq : (srcW : ℚ) * gifScale srcW ≤ 480 := by
      rcases le_or_lt (srcW : ℚ) 480 with h | h
      · calc (srcW : ℚ) * gifScale srcW ≤ (srcW : ℚ) * 1 := by
              have h0 : (0 : ℚ) ≤ (srcW : ℚ) := by positivity
              exact mul_le_mul_of_nonneg_left (min_le_left _ _) h0
          _ ≤ 480 := by simpa using h
      · have h0 : (0 : ℚ) < (srcW : ℚ) := lt_trans (by norm_num) h
        calc (srcW : ℚ) * gifScale srcW
            ≤ (srcW : ℚ) * (480 / (srcW : ℚ)) := by
              exact mul_le_mul_of_nonneg_left (min_le_right _ _) (le_of_lt h0)
          _ = 480 := by field_simp
    show jsRound ((srcW : ℚ) * gifScale srcW) ≤ 480
    have : ((srcW : ℚ) * gifScale srcW + 1/2) ≤ (480 : ℚ) + 1/2 := by linarith
    calc jsRound ((srcW : ℚ) * gifScale srcW)
        ≤ ⌊(480 : ℚ) + 1/2⌋ := Int.floor_le_floor this
      _ = 480 := by norm_num
  · intro k hk
    simp [sampleEvery4, List.getElem?_map, List.getElem?_range, hk]
  · simp [gifPalette, quantize]

/-- C2 (witness for `gifPalette_spec`): instantiation at a concrete
constant bitmap pair of 300×1000 with 12 working pixels, sample `k = 1`. -/
theorem gifPalette_spec_witness :
    (1 : ℕ) < (12 + 3) / 4 ∧
      (sampleEvery4 (fun _ => (⟨10, 20, 30⟩ : RGB)) 12)[(1 : ℕ)]?
        = some ⟨10, 20, 30, 255⟩ := by
  refine ⟨by decide, ?_⟩
  have h := (gifPalette_spec (fun _ => (⟨10, 20, 30⟩ : RGB))
    (fun _ => (⟨10, 20, 30⟩ : RGB)) 12 300 1000 300 1000).2.2.2.1 1 (by decide)
  simpa using h

/-- C5 (confirmed): within one animated-loop export the shared palette is
computed once, before any frame is encoded, and every frame is mapped
through that same palette; frames are written strictly in sequence order
(delays in the order of the frame list) and only the first written frame
carries the palette table, the other 27 carry none. -/
theorem createSliderGif_palette_once (beforePx afterPx : ℕ → RGB)
    (total : ℕ) (renderPx : ℚ → List RGBA) (w h : ℕ) :
    createSliderGifModel beforePx afterPx total renderPx w h
      = sliderGifWrites renderPx (gifPalette beforePx afterPx total)
          gifFrames w h ∧
    (createSliderGifModel beforePx afterPx total renderPx w h).map
        WrittenFrame.delay = gifFrames.map GifFrame.delay ∧
    (createSliderGifModel beforePx afterPx total renderPx w h).map
        WrittenFrame.index
      = gifFrames.map (fun fr =>
          applyPalette (renderPx fr.pct) (gifPalette beforePx afterPx total)) ∧
    (createSliderGifModel beforePx afterPx total renderPx w h).map
        WrittenFrame.paletteCarried
      = some (gifPalette beforePx afterPx total) :: List.replicate 27 none := by
  refine ⟨rfl, rfl, rfl, rfl⟩

/-- C6 (confirmed): `renderSliderFrame` draws no divider and no handle at
`pct = 0` and at `pct = 1`; more generally both are suppressed whenever
the clip boundary lies within 2 pixels of either edge; and at `pct = 1/2`
on a 480-pixel-wide frame the handle's center is drawn at `x = 240`. -/
theorem renderSliderFrame_edges :
    (∀ w h : ℕ, (renderSliderFrame w h 0).dividerDrawn = false ∧
      (renderSliderFrame w h 0).handleDrawn = false) ∧
    (∀ w h : ℕ, (renderSliderFrame w h 1).dividerDrawn = false ∧
      (renderSliderFrame w h 1).handleDrawn = false) ∧
    (∀ (w h : ℕ) (pct : ℚ),
      (renderSliderFrame w h pct).splitX ≤ 2 ∨
        (w : ℤ) - 2 ≤ (renderSliderFrame w h pct).splitX →
      (renderSliderFrame w h pct).dividerDrawn = false ∧
        (renderSliderFrame w h pct).handleDrawn = false) ∧
    (∀ h : ℕ, (renderSliderFrame 480 h (1/2)).handleCenter
      = some (240, (h : ℚ) / 2)) := by
  have hzero : jsRound (0 : ℚ) = 0 := by norm_num [jsRound]
  have hone : ∀ w : ℕ, jsRound ((w : ℚ)) = w := by
    intro w
    rw [jsRound, show ((w : ℚ)) = ((w : ℤ) : ℚ) by push_cast; ring, add_comm,
      Int.floor_add_int]
    norm_num
  refine ⟨?_, ?_, ?_, ?_⟩
  · intro w h
    constructor <;>
    · simp only [renderSliderFrame, mul_zero, hzero, decide_eq_false_iff_not]
      rintro ⟨h1, h2⟩
      omega
  · intro w h
    constructor <;>
    · simp only [renderSliderFrame, mul_one, hone, decide_eq_false_iff_not]
      rintro ⟨h1, h2⟩
      omega
  · intro w h pct hedge
    simp only [renderSliderFrame] at hedge ⊢
    constructor <;>
    · simp only [decide_eq_false_iff_not]
      rintro ⟨h1, h2⟩
      rcases hedge with h3 | h3 <;> omega
  · intro h
    have h240 : jsRound ((240 : ℚ)) = 240 := by norm_num [jsRound]
    simp only [renderSliderFrame]
    norm_num [h240]

/-- C6 (witness for `renderSliderFrame_edges`): at width 10 and
`pct = 1/10` the boundary sits at `x = 1 ≤ 2`, so no handle is drawn. -/
theorem renderSliderFrame_edges_witness :
    (renderSliderFrame 10 10 (1/10)).splitX ≤ 2 ∧
      (renderSliderFrame 10 10 (1/10)).handleDrawn = false := by
  have hs : (renderSliderFrame 10 10 (1/10)).splitX ≤ 2 := by
    norm_num [renderSliderFrame, jsRound]
  exact ⟨hs, (renderSliderFrame_edges.2.2.1 10 10 (1/10) (Or.inl hs)).2⟩

/-- C3 (counterexample): `captureFrame` on a source whose current
dimensions are zero does not fail with `CaptureError`: it succeeds and
returns the degenerate `"data:,"` encoding of a zero-area canvas. -/
theorem captureFrame_zero_counterexample :
    captureFrame ⟨0, 0⟩ (17/20) = .ok .empty ∧
      ∀ e : CaptureError, captureFrame ⟨0, 0⟩ (17/20) ≠ .error e := by
  exact ⟨rfl, fun e h => by simp [captureFrame] at h⟩

/-- C3 (amended): `captureFrame` performs no dimension validation and
never fails: for a zero-dimension source it succeeds with the degenerate
empty encoding, and for every source with valid (positive) dimensions it
rasterizes exactly one frame at the source's current native width and
height, re-encoded as JPEG at the requested quality. -/
theorem captureFrame_spec (src : LiveFrameSource) (q : ℚ) :
    (∃ r, captureFrame src q = .ok r) ∧
    (src.videoWidth = 0 ∨ src.videoHeight = 0 →
      captureFrame src q = .ok .empty) ∧
    (0 < src.videoWidth → 0 < src.videoHeight →
      captureFrame src q
        = .ok (.image "image/jpeg" src.videoWidth src.videoHeight q)) := by
  refine ⟨⟨_, rfl⟩, ?_, ?_⟩
  · intro h
    simp [captureFrame, canvasToDataURL, h]
  · intro hw hh
    have h : ¬ (src.videoWidth = 0 ∨ src.videoHeight = 0) := by omega
    simp [captureFrame, canvasToDataURL, h]

/-- C3 (witness for `captureFrame_spec`): a 640×480 source captures one
640×480 JPEG frame. -/
theorem captureFrame_spec_witness :
    captureFrame ⟨640, 480⟩ (17/20)
      = .ok (.image "image/jpeg" 640 480 (17/20)) :=
  (captureFrame_spec ⟨640, 480⟩ (17/20)).2.2 (by norm_num) (by norm_num)

/-- C4 (confirmed): the side-by-side canvas is exactly
`2·max(bw, aw) + 4` wide and `max(bh, ah) + W` tall, with `W = 0` when
the trimmed watermark is empty (a whitespace-only watermark gives the
same height as none) and `W = max(36, ⌊0.04·h⌋)` otherwise (e.g. for
watermark `"Acme"`). -/
theorem createSideBySide_canvas (bw bh aw ah : ℕ) (watermark : String) :
    (createSideBySide bw bh aw ah watermark).canvasWidth
      = 2 * max bw aw + 4 ∧
    (createSideBySide bw bh aw ah watermark).canvasHeight
      = max bh ah + (if jsTrim watermark = "" then 0
          else max 36 (Int.toNat ⌊((max bh ah : ℕ) : ℚ) * (4/100)⌋)) ∧
    (createSideBySide bw bh aw ah "  ").canvasHeight
      = (createSideBySide bw bh aw ah "").canvasHeight ∧
    (createSideBySide bw bh aw ah "Acme").canvasHeight
      = max bh ah + max 36 (Int.toNat ⌊((max bh ah : ℕ) : ℚ) * (4/100)⌋) := by
  refine ⟨by simp [createSideBySide, sideDivider]; ring, ?_, ?_, ?_⟩
  · by_cases h : jsTrim watermark = "" <;>
      simp [createSideBySide, wmStripHeight, h]
  · have h1 : jsTrim "  " = "" := by decide
    have h2 : jsTrim "" = "" := by decide
    simp [createSideBySide, h1, h2]
  · have h3 : jsTrim "Acme" ≠ "" := by decide
    simp [createSideBySide, wmStripHeight, h3]

/-- C8 (confirmed): each image is drawn centered in its half-canvas —
the margins on both sides of each image inside its `w × h` half are
equal (horizontally and vertically); in particular for before = 800×600
and after = 400×600, the after image starts at `x = 1004` with a margin
of `(800 − 400)/2 = 200` pixels on each side of its 800-wide half. -/
theorem createSideBySide_centering (bw bh aw ah : ℕ) (watermark : String) :
    ((createSideBySide bw bh aw ah watermark).afterX
        - (((max bw aw : ℕ) : ℚ) + 4)
      = (((max bw aw : ℕ) : ℚ) - aw) / 2 ∧
     (2 * ((max bw aw : ℕ) : ℚ) + 4)
        - ((createSideBySide bw bh aw ah watermark).afterX + aw)
      = (((max bw aw : ℕ) : ℚ) - aw) / 2) ∧
    ((createSideBySide bw bh aw ah watermark).beforeX
      = (((max bw aw : ℕ) : ℚ) - bw) / 2 ∧
     ((max bw aw : ℕ) : ℚ)
        - ((createSideBySide bw bh aw ah watermark).beforeX + bw)
      = (((max bw aw : ℕ) : ℚ) - bw) / 2) ∧
    ((createSideBySide bw bh aw ah watermark).beforeY
      = (((max bh ah : ℕ) : ℚ) - bh) / 2 ∧
     (createSideBySide bw bh aw ah watermark).afterY
      = (((max bh ah : ℕ) : ℚ) - ah) / 2) ∧
    ((createSideBySide 800 600 400 600 watermark).afterX = 1004 ∧
     (createSideBySide 800 600 400 600 watermark).afterX - (800 + 4) = 200 ∧
     (2 * 800 + 4) - ((createSideBySide 800 600 400 600 watermark).afterX
        + 400) = 200) := by
  refine ⟨⟨?_, ?_⟩, ⟨?_, ?_⟩, ⟨?_, ?_⟩, ?_, ?_, ?_⟩ <;>
    simp [createSideBySide, sideDivider] <;> norm_num <;> ring

/-- C10 (confirmed): `resizeImage` returns its input data URL unchanged
when both dimensions are at most `maxDimension`; otherwise it re-encodes
at `round(width·r) × round(height·r)` with the single uniform factor
`r = min(maxDimension/width, maxDimension/height)`, and both output
dimensions are at most `maxDimension`. -/
theorem resizeImage_spec (img : LoadedImage) (maxDimension : ℕ) (q : ℚ) :
    (img.width ≤ maxDimension ∧ img.height ≤ maxDimension →
      resizeImage img maxDimension q = .original img.dataUrl) ∧
    (¬ (img.width ≤ maxDimension ∧ img.height ≤ maxDimension) →
      resizeImage img maxDimension q
        = .reencoded
            (jsRound ((img.width : ℚ)
              * min ((maxDimension : ℚ) / img.width)
                    ((maxDimension : ℚ) / img.height)))
            (jsRound ((img.height : ℚ)
              * min ((maxDimension : ℚ) / img.width)
                    ((maxDimension : ℚ) / img.height))) q ∧
      jsRound ((img.width : ℚ)
        * min ((maxDimension : ℚ) / img.width)
              ((maxDimension : ℚ) / img.height)) ≤ maxDimension ∧
      jsRound ((img.height : ℚ)
        * min ((maxDimension : ℚ) / img.width)
              ((maxDimension : ℚ) / img.height)) ≤ maxDimension) := by
  have hbound : ∀ a b : ℕ, (a : ℚ)
      * min ((maxDimension : ℚ) / a) ((maxDimension : ℚ) / b)
      ≤ maxDimension := by
    intro a b
    rcases Nat.eq_zero_or_pos a with ha | ha
    · subst ha; simp
    · have ha' : (0 : ℚ) < a := by exact_mod_cast ha
      calc (a : ℚ) * min ((maxDimension : ℚ) / a) ((maxDimension : ℚ) / b)
          ≤ (a : ℚ) * ((maxDimension : ℚ) / a) :=
            mul_le_mul_of_nonneg_left (min_le_left _ _) (le_of_lt ha')
        _ = maxDimension := by field_simp
  constructor
  · intro h
    simp [resizeImage, h]
  · intro h
    refine ⟨by simp [resizeImage, h], jsRound_le_of_le (hbound _ _), ?_⟩
    have := hbound img.height img.width
    rw [min_comm ((maxDimension : ℚ) / img.height)
      ((maxDimension : ℚ) / img.width)] at this
    exact jsRound_le_of_le this

/-- C10 (witness for `resizeImage_spec`): a 4000×3000 input with
`maxDimension = 1920` is re-encoded at 1920×1440. -/
theorem resizeImage_spec_witness :
    resizeImage ⟨"u", 4000, 3000⟩ 1920 (17/20)
      = .reencoded 1920 1440 (17/20) := by
  have h := (resizeImage_spec ⟨"u", 4000, 3000⟩ 1920 (17/20)).2 (by norm_num)
  rw [h.1]
  norm_num [jsRound, min_def]

/-- Every character emitted by `escapeHtmlChar` is safe: the five
special characters are turned into entities and every other character is
kept only when it is none of them. -/
theorem escapeHtmlChar_no_breakers (a c : Char) (hc : c ∈ escapeHtmlChar a) :
    c ≠ '<' ∧ c ≠ '>' ∧ c ≠ Char.ofNat 34 ∧ c ≠ Char.ofNat 39 := by
  rw [escapeHtmlChar] at hc
  split_ifs at hc with h1 h2 h3 h4 h5
  · fin_cases hc <;> decide
  · fin_cases hc <;> decide
  · fin_cases hc <;> decide
  · fin_cases hc <;> decide
  · fin_cases hc <;> decide
  · simp only [List.mem_singleton] at hc
    subst hc
    exact ⟨h2, h3, h4, h5⟩

/-- `escapeHtml` output never contains a markup-breaking character. -/
theorem escapeHtml_no_breakers (s : String) :
    noMarkupBreakers (escapeHtml s) := by
  intro c hc
  simp only [escapeHtml, List.mem_flatten, List.mem_map] at hc
  obtain ⟨l, ⟨a, _, rfl⟩, hcl⟩ := hc
  exact escapeHtmlChar_no_breakers a c hcl

/-- C7 (confirmed): `exportHtmlSlider` rejects every input pair in which
either data URL does not start with `data:image/` (in particular a
`text/plain`-tagged input) before producing any output; and whenever it
accepts, both embedded image-data segments of the emitted document are
free of markup-breaking characters. -/
theorem exportHtmlSlider_safety (beforeDataUrl afterDataUrl : String) :
    (startsWithDataImage beforeDataUrl = false
        ∨ startsWithDataImage afterDataUrl = false →
      exportHtmlSlider beforeDataUrl afterDataUrl
        = .error .encodingRejected) ∧
    exportHtmlSlider "data:text/plain;base64,AAAA" afterDataUrl
      = .error .encodingRejected ∧
    (∀ d, exportHtmlSlider beforeDataUrl afterDataUrl = .ok d →
      noMarkupBreakers d.afterSrc ∧ noMarkupBreakers d.beforeSrc) := by
  refine ⟨?_, ?_, ?_⟩
  · intro h
    simp [exportHtmlSlider, h]
  · have hb : startsWithDataImage "data:text/plain;base64,AAAA" = false := by
      decide
    simp [exportHtmlSlider, hb]
  · intro d hd
    by_cases h : startsWithDataImage beforeDataUrl = false
        ∨ startsWithDataImage afterDataUrl = false
    · rw [exportHtmlSlider, if_pos h] at hd
      exact absurd hd (by simp)
    · rw [exportHtmlSlider, if_neg h] at hd
      obtain rfl : (⟨htmlTplHead, escapeHtml afterDataUrl, htmlTplMid,
          escapeHtml beforeDataUrl, htmlTplTail⟩ : HtmlSliderDoc) = d :=
        Except.ok.inj hd
      exact ⟨escapeHtml_no_breakers _, escapeHtml_no_breakers _⟩

/-- C7 (witness for `exportHtmlSlider_safety`): a non-image input is
rejected, and an accepted input containing markup-special characters is
embedded with no markup-breaking characters left. -/
theorem exportHtmlSlider_safety_witness :
    exportHtmlSlider "bogus" "data:image/png;base64,AAAA"
        = .error .encodingRejected ∧
      noMarkupBreakers (escapeHtml "data:image/png;base64,<evil>") := by
  constructor
  · exact (exportHtmlSlider_safety "bogus" "data:image/png;base64,AAAA").1
      (Or.inl (by decide))
  · have h := (exportHtmlSlider_safety "data:image/png;base64,<evil>"
      "data:image/png;base64,AAAA").2.2
      ⟨htmlTplHead, escapeHtml "data:image/png;base64,AAAA", htmlTplMid,
        escapeHtml "data:image/png;base64,<evil>", htmlTplTail⟩
      (by rw [exportHtmlSlider, if_neg]; push_neg; exact ⟨by decide, by decide⟩)
    exact h.2

theorem activeOf_append (k : SliderKind) (xs ys : List DomListener) :
    activeOf k (xs ++ ys) = activeOf k xs ++ activeOf k ys :=
  List.filter_append xs ys

theorem activeOf_mk_same (k : SliderKind) (specs : List (String × String))
    (n : ℕ) : activeOf k (mkListeners k specs n) = mkListeners k specs n := by
  rw [activeOf, List.filter_eq_self]
  intro a ha
  simp only [mkListeners, List.mem_map] at ha
  obtain ⟨p, _, rfl⟩ := ha
  simp

theorem activeOf_mk_ne {k k' : SliderKind} (h : k ≠ k')
    (specs : List (String × String)) (n : ℕ) :
    activeOf k (mkListeners k' specs n) = [] := by
  rw [activeOf, List.filter_eq_nil_iff]
  intro a ha
  simp only [mkListeners, List.mem_map] at ha
  obtain ⟨p, _, rfl⟩ := ha
  simp [Ne.symm h]

/-- Running a cleanup of the other kind leaves a kind's active listeners
untouched. -/
theorem activeOf_detach_ne {k k' : SliderKind} (h : k ≠ k')
    (specs : List (String × String)) (m : ℕ) (reg : List DomListener) :
    activeOf k (detachSession k' specs m reg) = activeOf k reg := by
  induction reg with
  | nil => rfl
  | cons a t ih =>
    by_cases hk : a.kind = k
    · have hpred : cleanupRemoves k' specs m a = false := by
        simp [cleanupRemoves, hk, h]
      simp [detachSession, activeOf, List.filter_cons, hpred, hk] at ih ⊢
      exact ih
    · by_cases hp : cleanupRemoves k' specs m a = true <;>
        simp [detachSession, activeOf, List.filter_cons, hp, hk] at ih ⊢ <;>
        exact ih

/-- When a kind's active listeners are exactly one session's set,
running that session's cleanup removes all of them. -/
theorem activeOf_detach_self (k : SliderKind)
    (specs : List (String × String)) (m : ℕ) (reg : List DomListener)
    (h : activeOf k reg = mkListeners k specs m) :
    activeOf k (detachSession k specs m reg) = [] := by
  rw [List.eq_nil_iff_forall_not_mem]
  intro l hl
  simp only [activeOf, detachSession, List.mem_filter, Bool.not_eq_true',
    Bool.and_eq_true, beq_iff_eq] at hl
  obtain ⟨⟨hreg, hpred⟩, hkind⟩ := hl
  have hmem : l ∈ activeOf k reg := by
    simp [activeOf, List.mem_filter, hreg, hkind]
  rw [h] at hmem
  simp only [mkListeners, List.mem_map] at hmem
  obtain ⟨p, hp, rfl⟩ := hmem
  have hcont : specs.contains (p.1, p.2) = true :=
    List.elem_eq_true_of_mem hp
  simp [cleanupRemoves, hcont] at hpred
  exact hpred hp

/-- `initInlineSlider` preserves the registry invariant. -/
theorem goodState_initInline (n : ℕ) (st : SliderListenerState)
    (h : GoodState st) : GoodState (initInlineSlider n st) := by
  obtain ⟨hi, hf⟩ := h
  constructor
  · show activeOf _ (_ ++ _) = _
    rw [activeOf_append, activeOf_mk_same]
    cases hs : st.inlineSession with
    | none =>
      rw [hs] at hi
      simp only [initInlineSlider, hs]
      rw [hi]
      rfl
    | some m =>
      rw [hs] at hi
      simp only [initInlineSlider, hs]
      rw [activeOf_detach_self _ _ _ _ hi]
      rfl
  · show activeOf _ (_ ++ _) = _
    rw [activeOf_append, activeOf_mk_ne (by simp)]
    cases hs : st.inlineSession with
    | none => simp only [initInlineSlider, hs]; rw [hf]; simp
    | some m =>
      simp only [initInlineSlider, hs]
      rw [activeOf_detach_ne (by simp)]
      rw [hf]; simp

/-- `initFullscreenSlider` preserves the registry invariant. -/
theorem goodState_initFullscreen (n : ℕ) (st : SliderListenerState)
    (h : GoodState st) : GoodState (initFullscreenSlider n st) := by
  obtain ⟨hi, hf⟩ := h
  constructor
  · show activeOf _ (_ ++ _) = _
    rw [activeOf_append, activeOf_mk_ne (by simp)]
    cases hs : st.fsSession with
    | none => simp only [initFullscreenSlider, hs]; rw [hi]; simp
    | some m =>
      simp only [initFullscreenSlider, hs]
      rw [activeOf_detach_ne (by simp)]
      rw [hi]; simp
  · show activeOf _ (_ ++ _) = _
    rw [activeOf_append, activeOf_mk_same]
    cases hs : st.fsSession with
    | none =>
      rw [hs] at hf
      simp only [initFullscreenSlider, hs]
      rw [hf]
      rfl
    | some m =>
      rw [hs] at hf
      simp only [initFullscreenSlider, hs]
      rw [activeOf_detach_self _ _ _ _ hf]
      rfl

/-- Any sequence of initializations preserves the registry invariant. -/
theorem goodState_runInits (ops : List SliderInit) :
    ∀ st : SliderListenerState, GoodState st → GoodState (runInits ops st) := by
  induction ops with
  | nil => exact fun st h => h
  | cons op t ih =>
    intro st h
    cases op with
    | inlineInit n => exact ih _ (goodState_initInline n st h)
    | fullscreenInit n => exact ih _ (goodState_initFullscreen n st h)

theorem goodState_initial : GoodState initialListenerState := ⟨rfl, rfl⟩

theorem expectedActive_length (k : SliderKind)
    (specs : List (String × String)) (o : Option ℕ) :
    (expectedActive k specs o).length ≤ specs.length := by
  cases o <;> simp [expectedActive, mkListeners]

theorem expectedActive_session (k : SliderKind)
    (specs : List (String × String)) (o : Option ℕ) :
    ∀ l₁ ∈ expectedActive k specs o, ∀ l₂ ∈ expectedActive k specs o,
      l₁.session = l₂.session := by
  cases o with
  | none => simp [expectedActive]
  | some m =>
    intro l₁ h₁ l₂ h₂
    simp only [expectedActive, mkListeners, List.mem_map] at h₁ h₂
    obtain ⟨p, _, rfl⟩ := h₁
    obtain ⟨q, _, rfl⟩ := h₂
    rfl

/-- C9 (confirmed): across any sequence of interactive-slider
initializations from a fresh module state, at most one set of active
listeners exists per preview kind at any time — the active listeners of
a kind never outnumber one initialization's registration set and all
belong to a single session — and each further initialization of a kind
removes the previous session's listeners entirely before attaching its
own, leaving exactly the new session's set. -/
theorem sliderInit_single_listener_set (ops : List SliderInit) :
    ((activeOf .inlineKind (runInits ops initialListenerState).reg).length
        ≤ inlineListenerSpecs.length ∧
      (activeOf .fullscreenKind
        (runInits ops initialListenerState).reg).length
        ≤ fullscreenListenerSpecs.length) ∧
    (∀ l₁ ∈ activeOf .inlineKind (runInits ops initialListenerState).reg,
      ∀ l₂ ∈ activeOf .inlineKind (runInits ops initialListenerState).reg,
        l₁.session = l₂.session) ∧
    (∀ l₁ ∈ activeOf .fullscreenKind
        (runInits ops initialListenerState).reg,
      ∀ l₂ ∈ activeOf .fullscreenKind
        (runInits ops initialListenerState).reg,
        l₁.session = l₂.session) ∧
    (∀ n, activeOf .inlineKind
        (runInits (ops ++ [.inlineInit n]) initialListenerState).reg
      = mkListeners .inlineKind inlineListenerSpecs n) ∧
    (∀ n, activeOf .fullscreenKind
        (runInits (ops ++ [.fullscreenInit n]) initialListenerState).reg
      = mkListeners .fullscreenKind fullscreenListenerSpecs n) := by
  obtain ⟨hi, hf⟩ :=
    goodState_runInits ops initialListenerState goodState_initial
  refine ⟨⟨?_, ?_⟩, ?_, ?_, ?_, ?_⟩
  · rw [hi]; exact expectedActive_length _ _ _
  · rw [hf]; exact expectedActive_length _ _ _
  · rw [hi]; exact expectedActive_session _ _ _
  · rw [hf]; exact expectedActive_session _ _ _
  · intro n
    rw [runInits, List.foldl_append]
    exact (goodState_initInline n (runInits ops initialListenerState)
      ⟨hi, hf⟩).1
  · intro n
    rw [runInits, List.foldl_append]
    exact (goodState_initFullscreen n (runInits ops initialListenerState)
      ⟨hi, hf⟩).2

/-- C9 (witness for `sliderInit_single_listener_set`): after two inline
initializations (sessions 1 then 2), two concrete active listeners both
belong to session 2. -/
theorem sliderInit_single_listener_set_witness :
    ((⟨"afterImg", "load", .inlineKind, 2⟩ : DomListener)
        ∈ activeOf .inlineKind
          (runInits [.inlineInit 1, .inlineInit 2]
            initialListenerState).reg) ∧
    ((⟨"window", "resize", .inlineKind, 2⟩ : DomListener)
        ∈ activeOf .inlineKind
          (runInits [.inlineInit 1, .inlineInit 2]
            initialListenerState).reg) ∧
    (⟨"afterImg", "load", SliderKind.inlineKind, 2⟩ : DomListener).session
      = (⟨"window", "resize", SliderKind.inlineKind, 2⟩ :
          DomListener).session := by
  have h1 : (⟨"afterImg", "load", .inlineKind, 2⟩ : DomListener)
      ∈ activeOf .inlineKind
        (runInits [.inlineInit 1, .inlineInit 2] initialListenerState).reg :=
    by decide
  have h2 : (⟨"window", "resize", .inlineKind, 2⟩ : DomListener)
      ∈ activeOf .inlineKind
        (runInits [.inlineInit 1, .inlineInit 2] initialListenerState).reg :=
    by decide
  exact ⟨h1, h2,
    (sliderInit_single_listener_set [.inlineInit 1, .inlineInit 2]).2.1
      _ h1 _ h2⟩

end BeforeAfter
